import Mathlib

/-!
Shallow embedding of the Telegraf Redshift input plugin
(`plugins/inputs/redshift/redshift.go`) and proofs about its behaviour.

The plugin's pure data flow is translated directly:
* the SQL query templates are transcribed byte-for-byte;
* `queryFmt` / `fmt.Sprintf` is modelled by `sprintfD` (only the verbs that
  occur in this repository's format strings — `%d` and `%%` — are given
  their Go semantics; no other verb appears in any template);
* `initQueries` builds the catalog (the Go `map[string]Query` is modelled
  as an association list keyed by the — distinct — query names);
* the stateful parts (`database/sql` connections, row iteration, the
  accumulator) are modelled by explicit stub environments (`RunEnv`),
  and each exit path of `gather` records whether the connection was
  opened and whether it was closed before returning;
* the concurrent fan-out in `Gather` is modelled by a completion order:
  the racy unsynchronized assignments to the shared `outerr` variable are
  modelled as a sequence of writes in completion order, the returned
  value being the last write.
-/

/-- Dynamically typed scalar held by the `interface{}` scan destinations.
`vNull` is the zero value of `interface{}` (a pointer that `Scan` never
wrote through). -/
inductive Value where
  | vNull : Value
  | vInt : Int → Value
  | vStr : String → Value
  | vBool : Bool → Value
deriving DecidableEq, Repr

/-- The `Redshift` plugin struct: `Address`, `ClusterName`, `IntervalSeconds`. -/
structure Redshift where
  Address : String
  ClusterName : String
  IntervalSeconds : Int
deriving DecidableEq, Repr

/-- The zero value `&Redshift{}` registered by the plugin's `init` function:
all string fields default to the empty string. -/
def defaultRedshift : Redshift :=
  { Address := "", ClusterName := "", IntervalSeconds := 0 }

/-- The `Query` struct: script text, measurement name, and the ordered column
names captured from the result schema (nil/empty until `gather` fills it). -/
structure Query where
  Script : String
  Measurement : String
  OrderedColumns : List String
deriving DecidableEq, Repr

/-- Go's `fmt.Sprintf` restricted to one argument and to the verbs that occur
in this repository's templates: `%%` emits a literal `%` and `%d` emits the
decimal rendering of the argument.  The dead branches (`%d` after the single
argument is consumed, an unconsumed argument at the end of the format string,
a trailing `%`) follow Go's `%!d(MISSING)` / `%!(EXTRA ...)` / `%!(NOVERB)`
conventions; no template exercises them, nor any other verb. -/
def sprintfDAux : List Char → Int → Bool → List Char
  | [], a, used =>
      if used then [] else ("%!(EXTRA int=" ++ toString a ++ ")").data
  | '%' :: '%' :: rest, a, used => '%' :: sprintfDAux rest a used
  | '%' :: 'd' :: rest, a, used =>
      if used then "%!d(MISSING)".data ++ sprintfDAux rest a used
      else (toString a).data ++ sprintfDAux rest a true
  | ['%'], _, _ => "%!(NOVERB)".data
  | '%' :: d :: rest, a, used => '%' :: d :: sprintfDAux rest a used
  | c :: rest, a, used => c :: sprintfDAux rest a used

/-- `fmt.Sprintf fmt a` for a single argument `a`. -/
def sprintfD (fmt : String) (a : Int) : String :=
  ⟨sprintfDAux fmt.data a false⟩

/-- `queryFmt` from redshift.go: `fmt.Sprintf(query, interval)`. -/
def queryFmt (query : String) (interval : Int) : String :=
  sprintfD query interval

/-- Two-character-pattern substring replacement (used only to *state* the
lookback-substitution property independently of `sprintfD`; both patterns of
interest, `%d` and `%%`, are two characters long): every occurrence of the
pattern `p₁p₂` in the input is replaced by `rep`, scanning left to right. -/
def replacePairAux (p₁ p₂ : Char) (rep : List Char) : List Char → List Char
  | [] => []
  | [c] => [c]
  | c :: d :: rest =>
      if c = p₁ ∧ d = p₂ then rep ++ replacePairAux p₁ p₂ rep rest
      else c :: replacePairAux p₁ p₂ rep (d :: rest)

/-- String wrapper for `replacePairAux`. -/
def replacePair (p₁ p₂ : Char) (rep s : String) : String :=
  ⟨replacePairAux p₁ p₂ rep.data s.data⟩
/-- SQL template `rsColumnsNotCompressed` from redshift.go, transcribed byte-for-byte. -/
def rsColumnsNotCompressed : String :=
  "\nselect\n    count(a.attname) as \"Columns Not Compressed\"\nfrom pg_namespace n, pg_class c, pg_attribute a  \nwhere n.oid = c.relnamespace \nand c.oid = a.attrelid \nand a.attnum > 0 \nand NOT a.attisdropped \nand n.nspname NOT IN (\x27information_schema\x27,\x27pg_catalog\x27,\x27pg_toast\x27) \nand format_encoding(a.attencodingtype::integer) = \x27none\x27 \nand c.relkind=\x27r\x27 and a.attsortkeyord != 1;\n"

/-- SQL template `rsDiskPctUsed` from redshift.go, transcribed byte-for-byte. -/
def rsDiskPctUsed : String :=
  "\nselect sum(used)::float / sum(capacity) as \"Disk Percent Full\"\nfrom stv_partitions;\n"

/-- SQL template `rsTableInfo` from redshift.go, transcribed byte-for-byte. -/
def rsTableInfo : String :=
  "\nselect\n\tsum(case when encoded = \x27N\x27 then 1 else 0 end) as \"Tables Not Compressed\",\n\tmax(case when isnull(skew_rows,0) >= isnull(skew_sortkey1,0)\n\t\t\t\tthen isnull(skew_rows,0)\n\t\t\t\telse isnull(skew_sortkey1,0)\n\t\t\t\tend\n\t) as \"Max Skew Sort Ratio\" ,\n\tsum(isnull(skew_rows,0)) + sum(isnull(skew_sortkey1,0)) as \"Total Skew Sort Ratio\" ,\n\tsum(case when skew_rows is not null then 1 else 0 end) + sum(case when skew_sortkey1 is not null then 1 else 0 end) as \"Number of Tables Skew Sort\" ,\n\tsum(case when isnull(skew_rows, 0) > 0 then 1 else 0 end) as \"Number of Tables Skewed\",\n\tsum(case when stats_off is not null then 1 else 0 end) as \"Number of Tables Stats Off\",\n\tmax(isnull(max_varchar,0)) as \"Max VarChar Size\",\n \tmax(isnull(unsorted,0)) as \"Max Unsorted Percent\",\n\tsum(isnull(tbl_rows,0)) as \"Total Table Rows\"\nfrom svv_table_info;\n"

/-- SQL template `rsQueryScanNoSort` from redshift.go, transcribed byte-for-byte. -/
def rsQueryScanNoSort : String :=
  "\nselect sum(nvl(s.num_qs,0)) as \"Query Scans No Sort\"\nfrom svv_table_info t \nleft join (\n\tselect tbl, COUNT(distinct query) num_qs \n\tfrom stl_scan s \n\twhere s.userid > 1 and starttime >= GETDATE() - INTERVAL \x27%d seconds\x27 \n\tgroup by tbl) s \non s.tbl = t.table_id \nwhere t.sortkey1 IS NULL;\n"

/-- SQL template `rsTotalWLMQueueTime` from redshift.go, transcribed byte-for-byte. -/
def rsTotalWLMQueueTime : String :=
  "\nselect isnull(SUM(w.total_queue_time) / 1000000.0,0) as \"Total WLM Queue Time Seconds\"\nfrom stl_wlm_query w \nwhere w.queue_start_time >= GETDATE() - INTERVAL \x27%d seconds\x27 \nand w.total_queue_time > 0;\n"

/-- SQL template `rsTotalDiskBasedQueries` from redshift.go, transcribed byte-for-byte. -/
def rsTotalDiskBasedQueries : String :=
  "\nselect isnull(count(distinct query),0) as \"Total Disk Based Queries\"\nfrom svl_query_report \nwhere is_diskbased=\x27t\x27 \nand (LABEL LIKE \x27hash%%\x27 OR LABEL LIKE \x27sort%%\x27 OR LABEL LIKE \x27aggr%%\x27) \nand userid > 1 and start_time >= GETDATE() - INTERVAL \x27%d seconds\x27;\n"

/-- SQL template `rsAvgCommitQueue` from redshift.go, transcribed byte-for-byte. -/
def rsAvgCommitQueue : String :=
  "\nselect isnull(avg(datediff(ms,startqueue,startwork)),0) as \"Avg Commit Queue Size\"\nfrom stl_commit_stats  \nwhere startqueue >= GETDATE() - INTERVAL \x27%d seconds\x27;\n"

/-- SQL template `rsTotalAlerts` from redshift.go, transcribed byte-for-byte. -/
def rsTotalAlerts : String :=
  "\nselect isnull(count(distinct l.query),0) as \"Total Alerts\"\nfrom stl_alert_event_log as l \nwhere l.userid >1 and l.event_time >= GETDATE() - INTERVAL \x27%d seconds\x27;\n"

/-- SQL template `rsAvgQueryTime` from redshift.go, transcribed byte-for-byte. -/
def rsAvgQueryTime : String :=
  "\nselect isnull(avg(datediff(ms, starttime, endtime)),0) as \"Avg Query Time ms\"\nfrom stl_query \nwhere starttime >= GETDATE() - INTERVAL \x27%d seconds\x27;\n"

/-- SQL template `rsTotalPackets` from redshift.go, transcribed byte-for-byte. -/
def rsTotalPackets : String :=
  "\nselect isnull(sum(packets),0) as \"Total Packets\"\nfrom stl_dist \nwhere starttime >= GETDATE() - INTERVAL \x27%d seconds\x27;\n"

/-- SQL template `rsQueriesTraffic` from redshift.go, transcribed byte-for-byte. -/
def rsQueriesTraffic : String :=
  "\nselect isnull(sum(total),0) as \"Queries Traffic\"\nfrom (\n\tselect count(query) total \n\tfrom stl_dist \n\twhere starttime >= GETDATE() - INTERVAL \x27%d seconds\x27 \n\tgroup by query \n\thaving sum(packets) > 1000000\n);\n"

/-- SQL template `rsDbConnections` from redshift.go, transcribed byte-for-byte. -/
def rsDbConnections : String :=
  "\nselect isnull(count(event),0) as \"Database Connections\"\nfrom stl_connection_log \nwhere event = \x27initiating session\x27 \nand username != \x27rdsdb\x27 \nand pid not in (\n\t\tselect pid \n\t\tfrom stl_connection_log \n\t\twhere event = \x27disconnecting session\x27\n\t);\n"

/-- SQL template `rsLoadRowScans` from redshift.go, transcribed byte-for-byte. -/
def rsLoadRowScans : String :=
  "\nselect isnull(sum(lines_scanned),0) as \"COPY - Load Lines Scanned\"\nfrom stl_load_commits\nwhere curtime >= GETDATE() - INTERVAL \x27%d seconds\x27;\n"

/-- SQL template `rsLoadErrors` from redshift.go, transcribed byte-for-byte. -/
def rsLoadErrors : String :=
  "\nselect isnull(count(1),0) as \"COPY - Load Errors\"\nfrom stl_load_errors\nwhere starttime >= GETDATE() - INTERVAL \x27%d seconds\x27;\n"

/-- SQL template `rsUnloadedRows` from redshift.go, transcribed byte-for-byte. -/
def rsUnloadedRows : String :=
  "\nselect isnull(sum(line_count),0) as \"COPY - UnLoad Rows\"\nfrom stl_unload_log\nwhere start_time >= GETDATE() - INTERVAL \x27%d seconds\x27;\n"

/-- SQL template `rsAnalyzeOps` from redshift.go, transcribed byte-for-byte. -/
def rsAnalyzeOps : String :=
  "\nselect isnull(count(1),0) as \"Analyze Operations\"\nfrom stl_analyze\nwhere starttime >= GETDATE() - INTERVAL \x27%d seconds\x27;\n"

/-- SQL template `rsAnalyzeDuration` from redshift.go, transcribed byte-for-byte. -/
def rsAnalyzeDuration : String :=
  "\nselect isnull(avg(datediff(second, starttime, endtime)),0) as \"Avg Analyze Duration sec\"\nfrom stl_analyze\nwhere starttime >= GETDATE() - INTERVAL \x27%d seconds\x27\nand endtime is not null;\n"

/-- SQL template `rsWLMService` from redshift.go, transcribed byte-for-byte. -/
def rsWLMService : String :=
  "\nselect sum(num_queued_queries) as \"Queued Queries\"\n\t, sum(num_executing_queries) as \"Executing Queries\"\n\t, sum(num_serviced_queries) as \"Serviced Queries\"\n\t, sum(num_evicted_queries) as \"Evicted Queries\"\nfrom stv_wlm_service_class_state s\njoin stv_wlm_service_class_config c \non s.service_class = c.service_class and c.service_class > 4;\n"

/-- SQL template `rsCurrentQueries` from redshift.go, transcribed byte-for-byte. -/
def rsCurrentQueries : String :=
  "\nselect isnull(count(1),0) as \"Currently Running Queries\" \nfrom stv_inflight \nwhere pid != pg_backend_pid();\n"


/-- `initQueries` from redshift.go: builds the query catalog afresh.  The Go
function overwrites the package-level `queries` map; here the catalog is the
returned association list (its 19 keys are distinct; the list order mirrors
the source's insertion order, which carries no semantics — Go map iteration
order is unspecified).  Each `Query` literal leaves `OrderedColumns` nil. -/
def initQueries (r : Redshift) : List (String × Query) :=
  [ ("ColumnsNotCompressed", { Script := rsColumnsNotCompressed, Measurement := "column", OrderedColumns := [] }),
    ("TableInfo", { Script := rsTableInfo, Measurement := "table", OrderedColumns := [] }),
    ("QueryScanNoSort", { Script := queryFmt rsQueryScanNoSort r.IntervalSeconds, Measurement := "query", OrderedColumns := [] }),
    ("TotalWLMQueueTime", { Script := queryFmt rsTotalWLMQueueTime r.IntervalSeconds, Measurement := "wlm", OrderedColumns := [] }),
    ("TotalDiskBasedQueries", { Script := queryFmt rsTotalDiskBasedQueries r.IntervalSeconds, Measurement := "query", OrderedColumns := [] }),
    ("AvgCommitQueue", { Script := queryFmt rsAvgCommitQueue r.IntervalSeconds, Measurement := "operation", OrderedColumns := [] }),
    ("TotalAlerts", { Script := queryFmt rsTotalAlerts r.IntervalSeconds, Measurement := "operation", OrderedColumns := [] }),
    ("AvgQueryTime", { Script := queryFmt rsAvgQueryTime r.IntervalSeconds, Measurement := "query", OrderedColumns := [] }),
    ("TotalPackets", { Script := queryFmt rsTotalPackets r.IntervalSeconds, Measurement := "network", OrderedColumns := [] }),
    ("QueriesTraffic", { Script := queryFmt rsQueriesTraffic r.IntervalSeconds, Measurement := "network", OrderedColumns := [] }),
    ("DbConnections", { Script := rsDbConnections, Measurement := "operation", OrderedColumns := [] }),
    ("CopyLoadLineScans", { Script := queryFmt rsLoadRowScans r.IntervalSeconds, Measurement := "operation", OrderedColumns := [] }),
    ("CopyLoadErrors", { Script := queryFmt rsLoadErrors r.IntervalSeconds, Measurement := "operation", OrderedColumns := [] }),
    ("CopyUnloadedRows", { Script := queryFmt rsUnloadedRows r.IntervalSeconds, Measurement := "operation", OrderedColumns := [] }),
    ("AnalyzeOperations", { Script := queryFmt rsAnalyzeOps r.IntervalSeconds, Measurement := "operation", OrderedColumns := [] }),
    ("AnalyzeDuration", { Script := queryFmt rsAnalyzeDuration r.IntervalSeconds, Measurement := "operation", OrderedColumns := [] }),
    ("WLMService", { Script := rsWLMService, Measurement := "wlm", OrderedColumns := [] }),
    ("RunningQueries", { Script := rsCurrentQueries, Measurement := "query", OrderedColumns := [] }),
    ("DiskPctUsage", { Script := rsDiskPctUsed, Measurement := "disk", OrderedColumns := [] }) ]

/-- One result row as delivered to `Scan`: either the positional values of
the row (`ok`, one per result column), or a driver-level scan failure
injected by the stub (`error`). -/
abbrev RowStub := Except String (List Value)

/-- A metric record handed to the accumulator by `acc.AddFields(measurement,
fields, tags)`.  `fields` is keyed by the distinct column names (the Go map's
iteration order is unspecified; here the keys follow `List.dedup` order, and
field facts are stated via lookup/membership, never via list position). -/
structure MetricRecord where
  measurement : String
  fields : List (String × Value)
  tags : List (String × String)
deriving DecidableEq, Repr

/-- The scan-destination slice `columnVars` built by `accRow`: the Go map
`columnMap` holds one fresh `*interface{}` per *distinct* column name, and
the loop `for i := 0; i < len(columnMap); i++` appends
`columnMap[query.OrderedColumns[i]]`, so destination `i` is the pointer
named `OrderedColumns[i]`, for `i < (number of distinct names)`. -/
def scanDests (cols : List String) : List String :=
  (List.range cols.dedup.length).map (fun i => cols.getD i "")

/-- The value held by the pointer named `c` after `Scan` wrote `vals`
through `dests` positionally: the last write through that pointer wins;
a pointer never written retains the zero `interface{}` value (`vNull`). -/
def lastScanVal (assign : List (String × Value)) (c : String) : Value :=
  match assign.reverse.lookup c with
  | some v => v
  | none => Value.vNull

/-- `database/sql`'s `Rows.Scan` bind-count check message. -/
def scanMismatchMsg (ndest nvals : Nat) : String :=
  "sql: expected " ++ toString ndest ++
    " destination arguments in Scan, not " ++ toString nvals

/-- `accRow` from redshift.go: builds `columnMap` (one destination per
distinct column name), the positional `columnVars` slice, calls `row.Scan`,
and on success emits one record with the query's measurement, the fields
read back through `columnMap`, and the single `cluster` tag. -/
def accRow (r : Redshift) (query : Query) (row : RowStub) : Except String MetricRecord :=
  match row with
  | .error e => .error e
  | .ok vals =>
      if (scanDests query.OrderedColumns).length = vals.length then
        .ok { measurement := query.Measurement
              fields := query.OrderedColumns.dedup.map
                (fun c => (c, lastScanVal ((scanDests query.OrderedColumns).zip vals) c))
              tags := [("cluster", r.ClusterName)] }
      else
        .error (scanMismatchMsg (scanDests query.OrderedColumns).length vals.length)

/-- The `for rows.Next()` loop of `gather`: each row goes through `accRow`;
the first failure stops iteration at once, keeping the records already
handed to the accumulator; otherwise all rows are accumulated in order. -/
def gatherRows (r : Redshift) (q : Query) : List RowStub → List MetricRecord × Option String
  | [] => ([], none)
  | row :: rest =>
      match accRow r q row with
      | .error e => ([], some e)
      | .ok rec =>
          let t := gatherRows r q rest
          (rec :: t.1, t.2)

/-- Stub behaviour of the external database for one `gather` invocation:
outcomes of `sql.Open`, `conn.Ping`, `conn.Query`, `rows.Columns`, the
streamed rows, and the terminal `rows.Err()`. -/
structure RunEnv where
  openErr : Option String
  pingErr : Option String
  queryErr : Option String
  columnsRes : Except String (List String)
  rows : List RowStub
  rowsErr : Option String
deriving Repr

/-- Outcome of one `gather` invocation: records emitted to the accumulator,
returned error, and whether the connection was opened / closed before
returning. -/
structure GatherResult where
  emitted : List MetricRecord
  err : Option String
  connOpened : Bool
  connClosed : Bool
deriving DecidableEq, Repr

/-- `gather` from redshift.go, line by line: open, ping (note: the source
registers `defer conn.Close()` only *after* the ping error check, so the
ping-failure return path leaves the opened connection unclosed), query,
`rows.Columns()` into `query.OrderedColumns`, the row loop, `rows.Err()`. -/
def gather (r : Redshift) (env : RunEnv) (query : Query) : GatherResult :=
  match env.openErr with
  | some e => { emitted := [], err := some e, connOpened := false, connClosed := false }
  | none =>
    match env.pingErr with
    | some e => { emitted := [], err := some e, connOpened := true, connClosed := false }
    | none =>
      match env.queryErr with
      | some e => { emitted := [], err := some e, connOpened := true, connClosed := true }
      | none =>
        match env.columnsRes with
        | .error e => { emitted := [], err := some e, connOpened := true, connClosed := true }
        | .ok cols =>
            let q := { query with OrderedColumns := cols }
            let res := gatherRows r q env.rows
            { emitted := res.1
              err := match res.2 with
                     | some e => some e
                     | none => env.rowsErr
              connOpened := true
              connClosed := true }

/-- Outcome of one `Gather` cycle: the catalog built at its start, the
per-query runs in completion order, everything emitted, and the value of
the shared `outerr` variable that `Gather` returns. -/
structure CycleResult where
  catalogUsed : List (String × Query)
  runs : List (String × GatherResult)
  emitted : List MetricRecord
  outerr : Option String
deriving Repr

/-- `Gather` from redshift.go.  `prevCatalog` is the value the package-level
`queries` variable holds from an earlier cycle; `initQueries` overwrites it
unconditionally, so it is dead on arrival.  `env` gives each query's stub
database behaviour and `order` is the completion order of the goroutines:
every goroutine executes `outerr = r.gather(addr, query, acc)`, so the
racy unsynchronized writes are modelled as a last-write-wins sequence in
completion order, and `Gather` returns the last write (or nil when the
catalog is empty). -/
def GatherCycle (prevCatalog : List (String × Query)) (r : Redshift)
    (env : String → RunEnv) (order : List String) : CycleResult :=
  let cat := initQueries r
  let runs := order.filterMap fun name =>
    (cat.lookup name).map fun q => (name, gather r (env name) q)
  { catalogUsed := cat
    runs := runs
    emitted := (runs.map fun p => p.2.emitted).flatten
    outerr := match runs.getLast? with
              | none => none
              | some p => p.2.err }

/-- Number of occurrences of the two-character pattern `p₁p₂` (used to state
which templates declare a window parameter `%d`). -/
def countPair (p₁ p₂ : Char) : List Char → Nat
  | [] => 0
  | [_] => 0
  | c :: d :: rest =>
      if c = p₁ ∧ d = p₂ then 1 + countPair p₁ p₂ rest
      else countPair p₁ p₂ (d :: rest)

/-- Stub environment of a run that succeeds with no rows. -/
def emptyRunEnv : RunEnv :=
  { openErr := none, pingErr := none, queryErr := none,
    columnsRes := .ok [], rows := [], rowsErr := none }

/-- Stub environment of a run whose `conn.Query` call fails. -/
def queryFailEnv : RunEnv :=
  { emptyRunEnv with queryErr := some "query failed" }

/-- Stub environment of a run whose `conn.Ping` liveness check fails. -/
def pingFailEnv : RunEnv :=
  { emptyRunEnv with pingErr := some "ping: no route to host" }

/-- Stub environment of a run returning one single-column row. -/
def oneRowEnv (col : String) (v : Value) : RunEnv :=
  { emptyRunEnv with columnsRes := .ok [col], rows := [.ok [v]] }

/-- Stub database for the one-failure cycle: `ColumnsNotCompressed` fails at
`conn.Query`, `TableInfo` returns one row, every other query succeeds with an
empty result set. -/
def envOneFailure : String → RunEnv := fun name =>
  if name = "ColumnsNotCompressed" then queryFailEnv
  else if name = "TableInfo" then oneRowEnv "t" (Value.vInt 3)
  else emptyRunEnv

/-- The 19 catalog keys, in the source's insertion order. -/
def catalogNames : List String :=
  ["ColumnsNotCompressed", "TableInfo", "QueryScanNoSort", "TotalWLMQueueTime",
   "TotalDiskBasedQueries", "AvgCommitQueue", "TotalAlerts", "AvgQueryTime",
   "TotalPackets", "QueriesTraffic", "DbConnections", "CopyLoadLineScans",
   "CopyLoadErrors", "CopyUnloadedRows", "AnalyzeOperations", "AnalyzeDuration",
   "WLMService", "RunningQueries", "DiskPctUsage"]

/-- A concrete plugin configuration used in concrete instances. -/
def rLab : Redshift :=
  { Address := "addr", ClusterName := "lab", IntervalSeconds := 500 }

/-- The seven measurement names the catalog uses. -/
def measurementNames : List String :=
  ["column", "table", "query", "wlm", "operation", "network", "disk"]

set_option maxRecDepth 10000

/-- **C4**: building the catalog with `lookbackSeconds = 500` yields, for
every time-windowed template (those declaring exactly one `%d` window
parameter), script text with the literal `500` substituted at that parameter
(`%%` decoding to `%` exactly as `Sprintf` does, which only
`TotalDiskBasedQueries` exercises), and yields the six non-windowed templates
(which declare no window parameter) character-for-character unchanged. -/
theorem C4_lookback_substitution_500 :
    (countPair '%' 'd' rsColumnsNotCompressed.data = 0 ∧
     countPair '%' 'd' rsTableInfo.data = 0 ∧
     countPair '%' 'd' rsDbConnections.data = 0 ∧
     countPair '%' 'd' rsWLMService.data = 0 ∧
     countPair '%' 'd' rsCurrentQueries.data = 0 ∧
     countPair '%' 'd' rsDiskPctUsed.data = 0) ∧
    (countPair '%' 'd' rsQueryScanNoSort.data = 1 ∧
     countPair '%' 'd' rsTotalWLMQueueTime.data = 1 ∧
     countPair '%' 'd' rsTotalDiskBasedQueries.data = 1 ∧
     countPair '%' 'd' rsAvgCommitQueue.data = 1 ∧
     countPair '%' 'd' rsTotalAlerts.data = 1 ∧
     countPair '%' 'd' rsAvgQueryTime.data = 1 ∧
     countPair '%' 'd' rsTotalPackets.data = 1 ∧
     countPair '%' 'd' rsQueriesTraffic.data = 1 ∧
     countPair '%' 'd' rsLoadRowScans.data = 1 ∧
     countPair '%' 'd' rsLoadErrors.data = 1 ∧
     countPair '%' 'd' rsUnloadedRows.data = 1 ∧
     countPair '%' 'd' rsAnalyzeOps.data = 1 ∧
     countPair '%' 'd' rsAnalyzeDuration.data = 1) ∧
    ((initQueries { defaultRedshift with IntervalSeconds := 500 }).lookup "ColumnsNotCompressed"
        = some ⟨rsColumnsNotCompressed, "column", []⟩ ∧
     (initQueries { defaultRedshift with IntervalSeconds := 500 }).lookup "TableInfo"
        = some ⟨rsTableInfo, "table", []⟩ ∧
     (initQueries { defaultRedshift with IntervalSeconds := 500 }).lookup "DbConnections"
        = some ⟨rsDbConnections, "operation", []⟩ ∧
     (initQueries { defaultRedshift with IntervalSeconds := 500 }).lookup "WLMService"
        = some ⟨rsWLMService, "wlm", []⟩ ∧
     (initQueries { defaultRedshift with IntervalSeconds := 500 }).lookup "RunningQueries"
        = some ⟨rsCurrentQueries, "query", []⟩ ∧
     (initQueries { defaultRedshift with IntervalSeconds := 500 }).lookup "DiskPctUsage"
        = some ⟨rsDiskPctUsed, "disk", []⟩) ∧
    ((initQueries { defaultRedshift with IntervalSeconds := 500 }).lookup "QueryScanNoSort"
        = some ⟨replacePair '%' 'd' "500" rsQueryScanNoSort, "query", []⟩ ∧
     (initQueries { defaultRedshift with IntervalSeconds := 500 }).lookup "TotalWLMQueueTime"
        = some ⟨replacePair '%' 'd' "500" rsTotalWLMQueueTime, "wlm", []⟩ ∧
     (initQueries { defaultRedshift with IntervalSeconds := 500 }).lookup "TotalDiskBasedQueries"
        = some ⟨replacePair '%' 'd' "500" (replacePair '%' '%' "%" rsTotalDiskBasedQueries), "query", []⟩ ∧
     (initQueries { defaultRedshift with IntervalSeconds := 500 }).lookup "AvgCommitQueue"
        = some ⟨replacePair '%' 'd' "500" rsAvgCommitQueue, "operation", []⟩ ∧
     (initQueries { defaultRedshift with IntervalSeconds := 500 }).lookup "TotalAlerts"
        = some ⟨replacePair '%' 'd' "500" rsTotalAlerts, "operation", []⟩ ∧
     (initQueries { defaultRedshift with IntervalSeconds := 500 }).lookup "AvgQueryTime"
        = some ⟨replacePair '%' 'd' "500" rsAvgQueryTime, "query", []⟩ ∧
     (initQueries { defaultRedshift with IntervalSeconds := 500 }).lookup "TotalPackets"
        = some ⟨replacePair '%' 'd' "500" rsTotalPackets, "network", []⟩ ∧
     (initQueries { defaultRedshift with IntervalSeconds := 500 }).lookup "QueriesTraffic"
        = some ⟨replacePair '%' 'd' "500" rsQueriesTraffic, "network", []⟩ ∧
     (initQueries { defaultRedshift with IntervalSeconds := 500 }).lookup "CopyLoadLineScans"
        = some ⟨replacePair '%' 'd' "500" rsLoadRowScans, "operation", []⟩ ∧
     (initQueries { defaultRedshift with IntervalSeconds := 500 }).lookup "CopyLoadErrors"
        = some ⟨replacePair '%' 'd' "500" rsLoadErrors, "operation", []⟩ ∧
     (initQueries { defaultRedshift with IntervalSeconds := 500 }).lookup "CopyUnloadedRows"
        = some ⟨replacePair '%' 'd' "500" rsUnloadedRows, "operation", []⟩ ∧
     (initQueries { defaultRedshift with IntervalSeconds := 500 }).lookup "AnalyzeOperations"
        = some ⟨replacePair '%' 'd' "500" rsAnalyzeOps, "operation", []⟩ ∧
     (initQueries { defaultRedshift with IntervalSeconds := 500 }).lookup "AnalyzeDuration"
        = some ⟨replacePair '%' 'd' "500" rsAnalyzeDuration, "operation", []⟩) := by
  decide

/-- **C5** counterexample: the claim says the catalog build rejects every
non-positive lookback; in the code it does not — with `lookbackSeconds = 0`
(a non-positive value) `initQueries` succeeds, producing the full 19-entry
catalog with `0` substituted into windowed query text. -/
theorem C5_counterexample_nonpositive_accepted :
    (0 : Int) ≤ 0 ∧
    (initQueries { defaultRedshift with IntervalSeconds := 0 }).length = 19 ∧
    (initQueries { defaultRedshift with IntervalSeconds := 0 }).lookup "QueryScanNoSort"
      = some ⟨replacePair '%' 'd' "0" rsQueryScanNoSort, "query", []⟩ := by
  decide

/-- **C5** (amended): catalog construction is deterministic — it depends only
on `IntervalSeconds`, never on the other fields — and it accepts every
lookback value, positive or not, always succeeding with the full 19-entry
catalog; enforcing a positive lookback is left to the caller. -/
theorem C5_amended_deterministic_and_total (r₁ r₂ : Redshift)
    (h : r₁.IntervalSeconds = r₂.IntervalSeconds) :
    initQueries r₁ = initQueries r₂ ∧ (initQueries r₁).length = 19 := by
  constructor
  · simp only [initQueries, h]
  · rfl

/-- Witness for the amended C5, at the non-positive lookback `-3`. -/
theorem C5_amended_witness :
    (⟨"a", "x", -3⟩ : Redshift).IntervalSeconds = (⟨"b", "y", -3⟩ : Redshift).IntervalSeconds ∧
    (initQueries ⟨"a", "x", -3⟩ = initQueries ⟨"b", "y", -3⟩ ∧
      (initQueries (⟨"a", "x", -3⟩ : Redshift)).length = 19) :=
  ⟨rfl, C5_amended_deterministic_and_total _ _ rfl⟩

/-- **C8**: the catalog is rebuilt at the start of every `Gather` call from
the static templates and the *current* `IntervalSeconds`; the previous
cycle's catalog (the package-level `queries` value) has no influence, so
after changing `IntervalSeconds` to `j` the very next cycle — here run with
the previous cycle's catalog still in the package-level variable — uses
query scripts with `j` freshly substituted. -/
theorem C8_fresh_catalog_each_cycle (prev prev' : List (String × Query))
    (r : Redshift) (env : String → RunEnv) (order : List String) (j : Int) :
    GatherCycle prev r env order = GatherCycle prev' r env order ∧
    (GatherCycle prev r env order).catalogUsed = initQueries r ∧
    (GatherCycle (GatherCycle prev r env order).catalogUsed
        { r with IntervalSeconds := j } env order).catalogUsed.lookup "QueryScanNoSort"
      = some ⟨queryFmt rsQueryScanNoSort j, "query", []⟩ := by
  refine ⟨rfl, rfl, ?_⟩
  rfl

/-- **C2** at the failing input: when the liveness check (`conn.Ping`) fails,
`gather` returns the ping error with the opened connection still unclosed —
the source registers `defer conn.Close()` only *after* the ping error check —
so the connection is not closed on every exit path.  By contrast, on the
later query-failure path (defer already registered) it is closed. -/
theorem C2_ping_failure_leaks_connection :
    (gather rLab pingFailEnv ⟨"select 1;", "query", []⟩).connOpened = true ∧
    (gather rLab pingFailEnv ⟨"select 1;", "query", []⟩).connClosed = false ∧
    (gather rLab pingFailEnv ⟨"select 1;", "query", []⟩).err = some "ping: no route to host" ∧
    (gather rLab queryFailEnv ⟨"select 1;", "query", []⟩).connClosed = true := by
  decide

/-- **C1** at the failing input: in a cycle where exactly one run fails
(`ColumnsNotCompressed`, whose `conn.Query` errors; its goroutine completes
first) and all 18 other runs succeed, the succeeding runs' metrics are still
emitted, but every goroutine executes `outerr = r.gather(...)` on the same
unsynchronized variable, so the later nil writes of the succeeding runs
overwrite the captured error and `Gather` returns nil: the failure is
silently swallowed, and nothing ever attributes it to the query's name. -/
theorem C1_error_swallowed_by_race :
    ((GatherCycle [] rLab envOneFailure catalogNames).runs.filter
        (fun p => p.2.err.isSome)).map Prod.fst = ["ColumnsNotCompressed"] ∧
    (⟨"table", [("t", Value.vInt 3)], [("cluster", "lab")]⟩ : MetricRecord)
      ∈ (GatherCycle [] rLab envOneFailure catalogNames).emitted ∧
    (GatherCycle [] rLab envOneFailure catalogNames).outerr = none := by
  decide

/-- A lookup whose key matches no entry yields `none`. -/
theorem lookup_eq_none_of_keys_ne {β : Type} {l : List (String × β)} {k : String}
    (h : ∀ p ∈ l, p.1 ≠ k) : l.lookup k = none := by
  induction l with
  | nil => rfl
  | cons p t ih =>
      obtain ⟨a, b⟩ := p
      have ha : a ≠ k := h (a, b) (List.mem_cons_self _ _)
      have hb : (k == a) = false := beq_eq_false_iff_ne.mpr fun he => ha he.symm
      simp only [List.lookup, hb]
      exact ih fun p hp => h p (List.mem_cons_of_mem _ hp)

/-- Appending on the right when the left lookup misses. -/
theorem lookup_append_none {β : Type} {l₁ : List (String × β)} (l₂ : List (String × β))
    {k : String} (h : l₁.lookup k = none) : (l₁ ++ l₂).lookup k = l₂.lookup k := by
  induction l₁ with
  | nil => rfl
  | cons p t ih =>
      obtain ⟨a, b⟩ := p
      simp only [List.lookup, List.cons_append] at h ⊢
      cases hk : (k == a) with
      | true => rw [hk] at h; simp at h
      | false => rw [hk] at h; exact ih h

/-- Appending on the right when the left lookup hits. -/
theorem lookup_append_some {β : Type} {l₁ : List (String × β)} (l₂ : List (String × β))
    {k : String} {v : β} (h : l₁.lookup k = some v) : (l₁ ++ l₂).lookup k = some v := by
  induction l₁ with
  | nil => exact absurd h (by simp [List.lookup])
  | cons p t ih =>
      obtain ⟨a, b⟩ := p
      simp only [List.lookup, List.cons_append] at h ⊢
      cases hk : (k == a) with
      | true => rw [hk] at h; exact h
      | false => rw [hk] at h; exact ih h

/-- A successful lookup locates an actual entry of the list. -/
theorem mem_of_lookup_eq_some {β : Type} {l : List (String × β)} {k : String} {v : β}
    (h : l.lookup k = some v) : (k, v) ∈ l := by
  induction l with
  | nil => exact absurd h (by simp [List.lookup])
  | cons p t ih =>
      obtain ⟨a, b⟩ := p
      simp only [List.lookup] at h
      cases hk : (k == a) with
      | true =>
          rw [hk] at h
          have h' : some b = some v := h
          obtain rfl : b = v := by injection h'
          obtain rfl : k = a := eq_of_beq hk
          exact List.mem_cons_self _ _
      | false => rw [hk] at h; exact List.mem_cons_of_mem _ (ih h)

/-- A key among the entry keys has a successful lookup. -/
theorem exists_lookup_of_mem_keys {β : Type} {l : List (String × β)} {k : String}
    (h : k ∈ l.map Prod.fst) : ∃ v, l.lookup k = some v := by
  induction l with
  | nil => simp at h
  | cons p t ih =>
      obtain ⟨a, b⟩ := p
      by_cases hk : k = a
      · subst hk
        exact ⟨b, by simp [List.lookup]⟩
      · have hb : (k == a) = false := beq_eq_false_iff_ne.mpr hk
        have : k ∈ t.map Prod.fst := by
          rcases List.mem_map.mp h with ⟨q, hq, hq1⟩
          rcases List.mem_cons.mp hq with rfl | hq'
          · exact absurd hq1.symm hk
          · exact List.mem_map.mpr ⟨q, hq', hq1⟩
        obtain ⟨v, hv⟩ := ih this
        exact ⟨v, by simp only [List.lookup, hb]; exact hv⟩

/-- Reading back through `getD` at every index reproduces the list. -/
theorem getD_range_map {α : Type} (l : List α) (d : α) :
    (List.range l.length).map (fun i => l.getD i d) = l := by
  induction l with
  | nil => simp
  | cons a t ih =>
      rw [List.length_cons, List.range_succ_eq_map, List.map_cons, List.map_map]
      have h0 : (a :: t).getD 0 d = a := rfl
      have hs : ((fun i => (a :: t).getD i d) ∘ Nat.succ) = fun i => t.getD i d := by
        funext i
        rfl
      rw [h0, hs, ih]

/-- The pointer for `c` keeps `v` when nothing later binds `c`. -/
theorem lastScanVal_head {l : List (String × Value)} {c : String} {v : Value}
    (h : ∀ p ∈ l, p.1 ≠ c) : lastScanVal ((c, v) :: l) c = v := by
  unfold lastScanVal
  rw [List.reverse_cons]
  have hn : l.reverse.lookup c = none :=
    lookup_eq_none_of_keys_ne fun p hp => h p (List.mem_reverse.mp hp)
  rw [lookup_append_none _ hn]
  simp [List.lookup]

/-- A binding for a different name does not affect `c`'s pointer. -/
theorem lastScanVal_cons_ne {l : List (String × Value)} {c x : String} {v : Value}
    (h : x ≠ c) : lastScanVal ((c, v) :: l) x = lastScanVal l x := by
  unfold lastScanVal
  rw [List.reverse_cons]
  cases hc : l.reverse.lookup x with
  | some w => rw [lookup_append_some _ hc]
  | none =>
      rw [lookup_append_none _ hc]
      have hb : (x == c) = false := beq_eq_false_iff_ne.mpr h
      simp [List.lookup, hb]

/-- With distinct column names, reading every pointer back after the
positional writes reproduces the name-value pairing exactly. -/
theorem map_lastScanVal_zip : ∀ (cols : List String) (vals : List Value),
    cols.Nodup → vals.length = cols.length →
    cols.map (fun c => (c, lastScanVal (cols.zip vals) c)) = cols.zip vals
  | [], _, _, _ => by simp
  | c :: cs, [], _, hl => by simp at hl
  | c :: cs, v :: vs, hnd, hl => by
      have hnotin : c ∉ cs := (List.nodup_cons.mp hnd).1
      have hnd' : cs.Nodup := (List.nodup_cons.mp hnd).2
      have hl' : vs.length = cs.length := by simpa using hl
      rw [List.zip_cons_cons, List.map_cons]
      have hhead : lastScanVal ((c, v) :: cs.zip vs) c = v := by
        apply lastScanVal_head
        intro p hp he
        obtain ⟨p1, p2⟩ := p
        exact hnotin (he ▸ (List.of_mem_zip hp).1)
      have hstep : ∀ x ∈ cs,
          (fun c' => (c', lastScanVal ((c, v) :: cs.zip vs) c')) x
            = (fun c' => (c', lastScanVal (cs.zip vs) c')) x := by
        intro x hx
        have hxc : x ≠ c := fun he => hnotin (he ▸ hx)
        simp only
        rw [lastScanVal_cons_ne hxc]
      rw [hhead, List.map_congr_left hstep, map_lastScanVal_zip cs vs hnd' hl']

/-- **C3**: for any ordered list of *distinct* column names and a row of
matching width, `accRow` succeeds and associates the i-th positional value
with the i-th column name — the field mapping is exactly the name/value
zip, names passed through verbatim and values untouched — under the query's
measurement and the single `cluster` tag. -/
theorem C3_accRow_positional_roundtrip (r : Redshift) (q : Query) (vals : List Value)
    (hnd : q.OrderedColumns.Nodup) (hl : vals.length = q.OrderedColumns.length) :
    accRow r q (.ok vals)
      = .ok { measurement := q.Measurement
              fields := q.OrderedColumns.zip vals
              tags := [("cluster", r.ClusterName)] } := by
  have hded : q.OrderedColumns.dedup = q.OrderedColumns := List.dedup_eq_self.mpr hnd
  have hdests : scanDests q.OrderedColumns = q.OrderedColumns := by
    unfold scanDests
    rw [hded]
    exact getD_range_map _ _
  simp only [accRow, hdests, hded]
  rw [if_pos hl.symm, map_lastScanVal_zip _ _ hnd hl]

/-- Witness for C3 at the claim's concrete instance: columns `["a","b","c"]`
and row `[1, "x", true]` map to `{"a" ↦ 1, "b" ↦ "x", "c" ↦ true}` with each
scalar kind preserved. -/
theorem C3_witness :
    (["a", "b", "c"] : List String).Nodup ∧
    ([Value.vInt 1, Value.vStr "x", Value.vBool true] : List Value).length
      = (["a", "b", "c"] : List String).length ∧
    accRow rLab ⟨"s", "m", ["a", "b", "c"]⟩
        (.ok [Value.vInt 1, Value.vStr "x", Value.vBool true])
      = .ok { measurement := "m"
              fields := [("a", Value.vInt 1), ("b", Value.vStr "x"), ("c", Value.vBool true)]
              tags := [("cluster", "lab")] } :=
  ⟨by decide, by decide,
    C3_accRow_positional_roundtrip rLab ⟨"s", "m", ["a", "b", "c"]⟩
      [Value.vInt 1, Value.vStr "x", Value.vBool true] (by decide) (by decide)⟩

/-- **C9**: `accRow` allocates exactly one scan destination per *distinct*
column name (the map `columnMap` collapses duplicates), so when
`OrderedColumns` contains a duplicated name the destination count is
strictly smaller than the number of result columns and `Scan` fails with
the bind-count mismatch instead of producing a mapped row. -/
theorem C9_duplicate_columns_scan_mismatch (r : Redshift) (q : Query) (vals : List Value)
    (hdup : ¬ q.OrderedColumns.Nodup) (hw : vals.length = q.OrderedColumns.length) :
    (scanDests q.OrderedColumns).length = q.OrderedColumns.dedup.length ∧
    (scanDests q.OrderedColumns).length < vals.length ∧
    accRow r q (.ok vals)
      = .error (scanMismatchMsg (scanDests q.OrderedColumns).length vals.length) := by
  have hlen : (scanDests q.OrderedColumns).length = q.OrderedColumns.dedup.length := by
    simp [scanDests]
  have hsub : q.OrderedColumns.dedup.Sublist q.OrderedColumns :=
    List.dedup_sublist _
  have hne : q.OrderedColumns.dedup.length ≠ q.OrderedColumns.length := by
    intro he
    exact hdup (List.dedup_eq_self.mp (hsub.eq_of_length he))
  have hlt : (scanDests q.OrderedColumns).length < vals.length := by
    rw [hlen, hw]
    exact lt_of_le_of_ne hsub.length_le hne
  refine ⟨hlen, hlt, ?_⟩
  simp only [accRow, if_neg (Nat.ne_of_lt hlt)]

/-- Witness for C9 at columns `["a","a","b"]` with a three-column row:
two destinations versus three columns, so `Scan` reports the mismatch. -/
theorem C9_witness :
    ¬ (["a", "a", "b"] : List String).Nodup ∧
    ([Value.vInt 1, Value.vInt 2, Value.vInt 3] : List Value).length
      = (["a", "a", "b"] : List String).length ∧
    ((scanDests ["a", "a", "b"]).length = (["a", "a", "b"] : List String).dedup.length ∧
     (scanDests ["a", "a", "b"]).length < 3 ∧
     accRow rLab ⟨"s", "m", ["a", "a", "b"]⟩ (.ok [Value.vInt 1, Value.vInt 2, Value.vInt 3])
       = .error (scanMismatchMsg (scanDests ["a", "a", "b"]).length 3)) :=
  ⟨by decide, by decide,
    C9_duplicate_columns_scan_mismatch rLab ⟨"s", "m", ["a", "a", "b"]⟩
      [Value.vInt 1, Value.vInt 2, Value.vInt 3] (by decide) (by decide)⟩

/-- **C10**: when the positional scan of a row fails, no record is emitted
for that row, iteration stops at once — rows after the failing one produce
nothing — and the records already emitted for the earlier rows of that query
remain with the accumulator, the row error being returned. -/
theorem C10_scan_failure_stops_iteration (r : Redshift) (q : Query)
    (pre post : List RowStub) (row : RowStub) (e : String)
    (hrow : accRow r q row = .error e)
    (hpre : ∀ rw ∈ pre, ∃ m, accRow r q rw = .ok m) :
    (gatherRows r q (pre ++ row :: post)).1
        = pre.filterMap (fun rw => (accRow r q rw).toOption) ∧
    (gatherRows r q (pre ++ row :: post)).2 = some e := by
  induction pre with
  | nil => simp [gatherRows, hrow]
  | cons rw pre' ih =>
      obtain ⟨m, hm⟩ := hpre rw (List.mem_cons_self _ _)
      have ih' := ih fun x hx => hpre x (List.mem_cons_of_mem _ hx)
      refine ⟨?_, ?_⟩
      · simp [gatherRows, hm, Except.toOption, ih'.1]
      · simp [gatherRows, hm, ih'.2]

/-- Witness for C10: one good single-column row, then a two-value row that
fails the bind-count check, then another good row; only the first row's
record survives and the scan error is returned. -/
theorem C10_witness :
    accRow rLab ⟨"s", "m", ["a"]⟩ (.ok [Value.vInt 1, Value.vInt 2])
        = .error (scanMismatchMsg 1 2) ∧
    (∀ rw ∈ ([.ok [Value.vInt 7]] : List RowStub),
        ∃ m, accRow rLab ⟨"s", "m", ["a"]⟩ rw = .ok m) ∧
    ((gatherRows rLab ⟨"s", "m", ["a"]⟩
        ([.ok [Value.vInt 7]] ++ .ok [Value.vInt 1, Value.vInt 2] :: [.ok [Value.vInt 9]])).1
        = ([.ok [Value.vInt 7]] : List RowStub).filterMap
            (fun rw => (accRow rLab ⟨"s", "m", ["a"]⟩ rw).toOption) ∧
     (gatherRows rLab ⟨"s", "m", ["a"]⟩
        ([.ok [Value.vInt 7]] ++ .ok [Value.vInt 1, Value.vInt 2] :: [.ok [Value.vInt 9]])).2
        = some (scanMismatchMsg 1 2)) := by
  have hrow : accRow rLab ⟨"s", "m", ["a"]⟩ (.ok [Value.vInt 1, Value.vInt 2])
      = .error (scanMismatchMsg 1 2) := rfl
  have hpre : ∀ rw ∈ ([.ok [Value.vInt 7]] : List RowStub),
      ∃ m, accRow rLab ⟨"s", "m", ["a"]⟩ rw = .ok m := by
    intro rw hrw
    rcases List.mem_cons.mp hrw with rfl | hfalse
    · exact ⟨_, rfl⟩
    · simp at hfalse
  exact ⟨hrow, hpre,
    C10_scan_failure_stops_iteration rLab ⟨"s", "m", ["a"]⟩
      [.ok [Value.vInt 7]] [.ok [Value.vInt 9]] (.ok [Value.vInt 1, Value.vInt 2])
      (scanMismatchMsg 1 2) hrow hpre⟩

/-- A record produced by a successful `accRow` carries the query's
measurement and the single `cluster` tag. -/
theorem accRow_ok_shape {r : Redshift} {q : Query} {row : RowStub} {m : MetricRecord}
    (h : accRow r q row = .ok m) :
    m.measurement = q.Measurement ∧ m.tags = [("cluster", r.ClusterName)] := by
  cases row with
  | error e => simp [accRow] at h
  | ok vals =>
      by_cases hc : (scanDests q.OrderedColumns).length = vals.length
      · simp only [accRow, if_pos hc] at h
        have h' := Except.ok.inj h
        rw [← h']
        exact ⟨rfl, rfl⟩
      · simp only [accRow, if_neg hc] at h
        simp at h

/-- Every record produced by the row loop carries the query's measurement
and the single `cluster` tag. -/
theorem mem_gatherRows_shape {r : Redshift} {q : Query} {rows : List RowStub}
    {rec : MetricRecord} (h : rec ∈ (gatherRows r q rows).1) :
    rec.measurement = q.Measurement ∧ rec.tags = [("cluster", r.ClusterName)] := by
  induction rows with
  | nil => simp [gatherRows] at h
  | cons row rest ih =>
      cases hrow : accRow r q row with
      | error e => simp [gatherRows, hrow] at h
      | ok m =>
          simp only [gatherRows, hrow] at h
          rcases List.mem_cons.mp h with rfl | h'
          · exact accRow_ok_shape hrow
          · exact ih h'

/-- Every record emitted by one `gather` run carries that query's
measurement and the single `cluster` tag. -/
theorem mem_gather_shape {r : Redshift} {env : RunEnv} {q : Query}
    {rec : MetricRecord} (h : rec ∈ (gather r env q).emitted) :
    rec.measurement = q.Measurement ∧ rec.tags = [("cluster", r.ClusterName)] := by
  obtain ⟨o, p, qe, cr, rows, re⟩ := env
  cases o with
  | some e => simp [gather] at h
  | none =>
    cases p with
    | some e => simp [gather] at h
    | none =>
      cases qe with
      | some e => simp [gather] at h
      | none =>
        cases cr with
        | error e => simp [gather] at h
        | ok cols =>
            simp only [gather] at h
            exact @mem_gatherRows_shape r { q with OrderedColumns := cols } rows rec h

/-- Every catalog entry's measurement is one of the seven category names. -/
theorem initQueries_measurement_mem (r : Redshift) :
    ∀ p ∈ initQueries r, p.2.Measurement ∈ measurementNames := by
  intro p hp
  simp only [initQueries, List.mem_cons, List.not_mem_nil, or_false] at hp
  rcases hp with rfl | rfl | rfl | rfl | rfl | rfl | rfl | rfl | rfl | rfl | rfl | rfl |
    rfl | rfl | rfl | rfl | rfl | rfl | rfl <;> simp [measurementNames]

/-- Any record emitted during a cycle comes from some catalog entry's run. -/
theorem mem_cycle_emitted {prev : List (String × Query)} {r : Redshift}
    {env : String → RunEnv} {order : List String} {rec : MetricRecord}
    (hmem : rec ∈ (GatherCycle prev r env order).emitted) :
    ∃ name q, (initQueries r).lookup name = some q ∧
      rec ∈ (gather r (env name) q).emitted := by
  simp only [GatherCycle] at hmem
  obtain ⟨l, hl, hrecl⟩ := List.mem_flatten.mp hmem
  obtain ⟨pr, hpr, rfl⟩ := List.mem_map.mp hl
  obtain ⟨name, hname, hf⟩ := List.mem_filterMap.mp hpr
  obtain ⟨q, hq, rfl⟩ := Option.map_eq_some'.mp hf
  exact ⟨name, q, hq, hrecl⟩

/-- **C6**: every record emitted during a `Gather` cycle comes from the run
of some catalog descriptor and has its measurement *equal* to that producing
descriptor's category — which is one of the seven category names of this
(rich) variant — and a tag map that is exactly the single `cluster` tag
holding the configured cluster label, which defaults to the empty string in
the zero-valued plugin the registry constructs. -/
theorem C6_measurement_category_and_cluster_tag (prev : List (String × Query))
    (r : Redshift) (env : String → RunEnv) (order : List String) (rec : MetricRecord)
    (hmem : rec ∈ (GatherCycle prev r env order).emitted) :
    rec.tags = [("cluster", r.ClusterName)] ∧
    (∃ name q, (initQueries r).lookup name = some q ∧
      rec ∈ (gather r (env name) q).emitted ∧
      rec.measurement = q.Measurement ∧
      q.Measurement ∈ measurementNames) ∧
    rec.measurement ∈ measurementNames ∧
    defaultRedshift.ClusterName = "" := by
  obtain ⟨name, q, hq, hrec⟩ := mem_cycle_emitted hmem
  have hshape := mem_gather_shape hrec
  have hqmem := mem_of_lookup_eq_some hq
  have hcat := initQueries_measurement_mem r (name, q) hqmem
  refine ⟨hshape.2, ⟨name, q, hq, hrec, hshape.1, hcat⟩, ?_, rfl⟩
  rw [hshape.1]
  exact hcat

/-- Witness for C6: a concrete cycle running `RunningQueries` against a stub
returning one row emits exactly the record with measurement `query` — the
category of the producing `RunningQueries` descriptor — and tag
`cluster=lab`. -/
theorem C6_witness :
    (⟨"query", [("c", Value.vInt 7)], [("cluster", "lab")]⟩ : MetricRecord)
      ∈ (GatherCycle [] rLab (fun _ => oneRowEnv "c" (Value.vInt 7))
          ["RunningQueries"]).emitted ∧
    ((⟨"query", [("c", Value.vInt 7)], [("cluster", "lab")]⟩ : MetricRecord).tags
        = [("cluster", rLab.ClusterName)] ∧
     (∃ name q, (initQueries rLab).lookup name = some q ∧
        (⟨"query", [("c", Value.vInt 7)], [("cluster", "lab")]⟩ : MetricRecord)
          ∈ (gather rLab ((fun _ => oneRowEnv "c" (Value.vInt 7)) name) q).emitted ∧
        (⟨"query", [("c", Value.vInt 7)], [("cluster", "lab")]⟩ : MetricRecord).measurement
          = q.Measurement ∧
        q.Measurement ∈ measurementNames) ∧
     (⟨"query", [("c", Value.vInt 7)], [("cluster", "lab")]⟩ : MetricRecord).measurement
        ∈ measurementNames ∧
     defaultRedshift.ClusterName = "") := by
  have hmem : (⟨"query", [("c", Value.vInt 7)], [("cluster", "lab")]⟩ : MetricRecord)
      ∈ (GatherCycle [] rLab (fun _ => oneRowEnv "c" (Value.vInt 7))
          ["RunningQueries"]).emitted := by decide
  exact ⟨hmem,
    C6_measurement_category_and_cluster_tag [] rLab
      (fun _ => oneRowEnv "c" (Value.vInt 7)) ["RunningQueries"] _ hmem⟩

/-- Runs are keyed by the order list whenever every name resolves in the
catalog. -/
theorem filterMap_lookup_fst {cat : List (String × Query)} {g : String → Query → String × GatherResult}
    (hg : ∀ name q, (g name q).1 = name) :
    ∀ (order : List String), (∀ name ∈ order, ∃ q, cat.lookup name = some q) →
      (order.filterMap fun name => (cat.lookup name).map fun q => g name q).map Prod.fst
        = order := by
  intro order
  induction order with
  | nil => intro _; rfl
  | cons name rest ih =>
      intro hall
      obtain ⟨q, hq⟩ := hall name (List.mem_cons_self _ _)
      have hrest := ih fun x hx => hall x (List.mem_cons_of_mem _ hx)
      simp [List.filterMap_cons, hq, hrest, hg]

/-- **C7**: for any catalog size, one run is dispatched per catalog entry —
when the completion order is a permutation of the catalog's keys, the cycle
performs exactly those runs, in that order, and the coordinator's result is a
function of all of them (modelling that `wg.Wait()` returns only after every
goroutine has finished): the run names are exactly the catalog keys, one
each, and the number of runs equals the catalog size. -/
theorem C7_one_run_per_catalog_entry (prev : List (String × Query)) (r : Redshift)
    (env : String → RunEnv) (order : List String)
    (hperm : order.Perm ((initQueries r).map Prod.fst)) :
    (GatherCycle prev r env order).runs.map Prod.fst = order ∧
    ((GatherCycle prev r env order).runs.map Prod.fst).Perm
        ((initQueries r).map Prod.fst) ∧
    (GatherCycle prev r env order).runs.length = (initQueries r).length := by
  have hall : ∀ name ∈ order, ∃ q, (initQueries r).lookup name = some q := by
    intro name hn
    exact exists_lookup_of_mem_keys (hperm.mem_iff.mp hn)
  have h1 : (GatherCycle prev r env order).runs.map Prod.fst = order :=
    filterMap_lookup_fst (fun _ _ => rfl) order hall
  refine ⟨h1, ?_, ?_⟩
  · rw [h1]
    exact hperm
  · have h2 : (GatherCycle prev r env order).runs.length
        = ((GatherCycle prev r env order).runs.map Prod.fst).length :=
      (List.length_map _ _).symm
    rw [h2, h1, hperm.length_eq, List.length_map]

/-- Witness for C7: the full 19-name completion order against trivial stubs
yields 19 runs, one per catalog entry. -/
theorem C7_witness :
    catalogNames.Perm ((initQueries rLab).map Prod.fst) ∧
    ((GatherCycle [] rLab (fun _ => emptyRunEnv) catalogNames).runs.map Prod.fst
        = catalogNames ∧
     ((GatherCycle [] rLab (fun _ => emptyRunEnv) catalogNames).runs.map Prod.fst).Perm
        ((initQueries rLab).map Prod.fst) ∧
     (GatherCycle [] rLab (fun _ => emptyRunEnv) catalogNames).runs.length
        = (initQueries rLab).length) := by
  have he : (initQueries rLab).map Prod.fst = catalogNames := rfl
  have hperm : catalogNames.Perm ((initQueries rLab).map Prod.fst) := by
    rw [he]
  exact ⟨hperm,
    C7_one_run_per_catalog_entry [] rLab (fun _ => emptyRunEnv) catalogNames hperm⟩
